import Mathlib

/-!
Shallow embedding of `src/path.py` of Path4GMNS: shortest-path queries,
skim-matrix assembly and per-agent path assignment over a transportation
network.

Conventions of the embedding:
* Python floats are modelled as exact rationals (`ℚ`).
* The mutable module/graph state (the module global `_prev_cost_type`, the
  active per-link cost array and the engine's label/predecessor buffers) is
  threaded explicitly as a `PathState` value.
* Functions that `raise` are modelled with `Except String`.
* The C++ path engine (`path_engine.so`, reached through ctypes) and the
  network-class methods it relies on are not part of `src/`; they are
  modelled from the spec where noted.
-/

namespace Path4GMNS

/-- A directed link of the network, with the fields `src/path.py` reads and
writes: free-flow travel time `fftt`, geometric `length`, the allowed-uses
tag string (modelled as a list of characters, so the Python substring test
becomes list membership) and the external link id reported by
`get_link_id()`. -/
structure LinkRec where
  link_id : String
  from_node : Nat
  to_node : Nat
  fftt : ℚ
  length : ℚ
  allowed_uses : List Char

instance : Inhabited LinkRec :=
  ⟨{ link_id := "", from_node := 0, to_node := 0, fftt := 0, length := 0, allowed_uses := [] }⟩

/-- A network node as seen by `find_shortest_path_network`: only the zone
designator is consulted there. -/
structure NodeRec where
  zone_id : String

/-- The engine-facing network view supplied by the graph-load collaborator:
ID ↔ index mappings (modelled as association lists), node and link arrays,
the through-node boundary, the query's agent-type/mode tag and the length
unit used for reporting. -/
structure Network where
  map_id_to_no : List (String × Nat)
  map_no_to_id : List (Nat × String)
  nodes : List NodeRec
  links : List LinkRec
  node_size : Nat
  last_thru_node : Nat
  agent_type : Char
  length_unit : String

/-- The mutable state read and written by `src/path.py`:
`prev_cost_type` is the module-level `_prev_cost_type` cache (line 60),
`active_costs` the per-link cost array held by the network object, and
`labels`, `node_preds`, `link_preds` the engine's output buffers
(`G.node_label_cost`, `G.node_preds`, `G.link_preds`). -/
@[ext]
structure PathState where
  prev_cost_type : String
  active_costs : List ℚ
  labels : Nat → ℚ
  node_preds : Nat → Int
  link_preds : Nat → Int

/-- Modelled from the spec: the configured maximum-cost sentinel
(`MAX_LABEL_COST`, imported by `src/path.py` from the package's `consts`
module, which is not under `src/`); "the engine never raises for an
unreachable destination — it reports the sentinel max cost". -/
def MAX_LABEL_COST : ℚ := 2147483647

/-- Modelled from the spec: `G.init_link_costs(cost_type)` (a network-class
method, not under `src/`) rebuilds the active per-link cost array for the
requested selector — free-flow travel time for "time", link length for
"distance" ("Cost selector: an enumerated value {time, distance} determining
which per-link cost array is active"). -/
def init_link_costs (G : Network) (cost_type : String) : List ℚ :=
  G.links.map (fun l => if cost_type = "time" then l.fftt else l.length)

/-- Modelled from the spec: `G.get_path_cost(to_node_id, cost_type)` (a
network-class method, not under `src/`) reports the engine's label for the
destination; "callers interpret cost ≥ sentinel as no path". -/
def get_path_cost (G : Network) (s : PathState) (to_node_id cost_type : String) : ℚ :=
  s.labels ((G.map_id_to_no.lookup to_node_id).getD 0)

/-- Modelled from the spec: the state right after module load and network
load — `_prev_cost_type` starts as `"time"` (src/path.py line 60), the graph
loader builds the initial (time-based) cost array, and the engine buffers
start at the sentinel reset ("reset to sentinel/'none' at the start of every
call"). -/
def init_path_state (G : Network) : PathState :=
  { prev_cost_type := "time"
    active_costs := init_link_costs G "time"
    labels := fun _ => MAX_LABEL_COST
    node_preds := fun _ => -1
    link_preds := fun _ => -1 }

/-- Modelled from the spec: per-node scan status of the deque
label-correcting engine — "a per-node status {unqueued, queued-front,
queued-back, scanned}". -/
inductive NodeStatus where
  | unqueued
  | queuedFront
  | queuedBack
  | scanned

/-- Modelled from the spec: working state of the label-correcting engine —
node labels, node/link predecessors (`-1` = "none"), the double-ended work
queue and per-node status. -/
structure MLCState where
  label : Nat → ℚ
  node_pred : Nat → Int
  link_pred : Nat → Int
  deque : List Nat
  status : Nat → NodeStatus

/-- Modelled from the spec: "if v was never queued or was already scanned,
push v; push to the front if v had previously been scanned ..., otherwise
push to the back". Currently queued nodes are not pushed again. -/
def push_node (v : Nat) (s : MLCState) : MLCState :=
  match s.status v with
  | NodeStatus.scanned =>
      { s with deque := v :: s.deque
               status := Function.update s.status v NodeStatus.queuedFront }
  | NodeStatus.unqueued =>
      { s with deque := s.deque ++ [v]
               status := Function.update s.status v NodeStatus.queuedBack }
  | _ => s

/-- Modelled from the spec: one relaxation — "compute candidate = label(u) +
cost(link). If candidate < label(v): update label(v), predecessor node(v) =
u, predecessor link(v) = link index" and push `v`. -/
def relax_link (costs : List ℚ) (u idx : Nat) (l : LinkRec) (s : MLCState) : MLCState :=
  if s.label u + costs.getD idx 0 < s.label l.to_node then
    push_node l.to_node
      { s with
        label := Function.update s.label l.to_node (s.label u + costs.getD idx 0)
        node_pred := Function.update s.node_pred l.to_node (Int.ofNat u)
        link_pred := Function.update s.link_pred l.to_node (Int.ofNat idx) }
  else s

/-- Modelled from the spec: scanning a dequeued node `u` — "for every
outgoing link (u→v) whose mode mask intersects the query's mode filter and
whose source u is within the through-node boundary (or u is the origin)",
perform the relaxation. -/
def scan_node (G : Network) (costs : List ℚ) (origin u : Nat) (s : MLCState) : MLCState :=
  G.links.enum.foldl
    (fun st p =>
      if p.2.from_node = u ∧ G.agent_type ∈ p.2.allowed_uses ∧
          (u ≤ G.last_thru_node ∨ u = origin) then
        relax_link costs u p.1 p.2 st
      else st)
    s

/-- Modelled from the spec: the main deque loop — "loop while the queue is
non-empty: pop a node u from the front", mark it scanned and relax its
outgoing links. Fuel makes the recursion structural; every property proved
below is a step invariant and holds for any fuel. -/
def mlc_loop (G : Network) (costs : List ℚ) (origin : Nat) : Nat → MLCState → MLCState
  | 0, s => s
  | Nat.succ fuel, s =>
    match s.deque with
    | [] => s
    | u :: rest =>
      mlc_loop G costs origin fuel
        (scan_node G costs origin u
          { s with deque := rest, status := Function.update s.status u NodeStatus.scanned })

/-- Modelled from the spec: engine initialization — "origin label = 0,
pushed to the front of the queue; all other labels = sentinel max",
predecessors "none". -/
def mlc_init (origin : Nat) : MLCState :=
  { label := Function.update (fun _ => MAX_LABEL_COST) origin 0
    node_pred := fun _ => -1
    link_pred := fun _ => -1
    deque := [origin]
    status := Function.update (fun _ => NodeStatus.unqueued) origin NodeStatus.queuedFront }

/-- Fuel budget for the deque loop, generous for the small instances this
development evaluates. -/
def mlc_fuel (G : Network) : Nat :=
  (G.node_size + 1) * (G.links.length + 1) * (G.links.length + 1)

/-- Modelled from the spec: the deque label-correcting engine
(`shortest_path_n` in the compiled `path_engine` library, reached through
`_optimal_label_correcting_CAPI`; the engine source is not under `src/`).
Produces the shortest-path tree — labels, node predecessors and link
predecessors — for one origin. -/
def mlc (G : Network) (costs : List ℚ) (origin : Nat) : MLCState :=
  mlc_loop G costs origin (mlc_fuel G) (mlc_init origin)

/-- `single_source_shortest_path` (src/path.py lines 112-122), instrumented:
the returned boolean records whether the active cost array was rebuilt,
i.e. whether `G.init_link_costs(cost_type)` was invoked.
`G.allocate_for_CAPI()` only allocates the (already modelled) buffers and is
a no-op here. -/
def single_source_core (G : Network) (orig_node_id cost_type : String) (s : PathState) :
    PathState × Bool :=
  let s1 :=
    if s.prev_cost_type != cost_type then
      { s with active_costs := init_link_costs G cost_type, prev_cost_type := cost_type }
    else s
  let orig_node_no := (G.map_id_to_no.lookup orig_node_id).getD 0
  let t := mlc G s1.active_costs orig_node_no
  ({ s1 with labels := t.label, node_preds := t.node_pred, link_preds := t.link_pred },
   s.prev_cost_type != cost_type)

/-- `single_source_shortest_path` (src/path.py lines 112-122). -/
def single_source_shortest_path (G : Network) (orig_node_id cost_type : String)
    (s : PathState) : PathState :=
  (single_source_core G orig_node_id cost_type s).1

/-- Backward node-sequence walk of `output_path_sequence` (src/path.py lines
133-138): `while curr_node_no >= 0: path.append(curr_node_no);
curr_node_no = node_preds[curr_node_no]`. Fuel bounds the loop (the
predecessor chain of a completed tree is acyclic). -/
def walk_nodes (node_preds : Nat → Int) : Nat → Int → List Nat
  | 0, _ => []
  | Nat.succ fuel, curr =>
    if 0 ≤ curr then curr.toNat :: walk_nodes node_preds fuel (node_preds curr.toNat)
    else []

/-- Backward link-sequence walk of `output_path_sequence` (src/path.py lines
142-147). (Python's negative indexing at a "none" node predecessor cannot
occur on a completed tree, where a set link predecessor implies a set node
predecessor.) -/
def walk_links (node_preds link_preds : Nat → Int) : Nat → Int → List Nat
  | 0, _ => []
  | Nat.succ fuel, curr =>
    if 0 ≤ link_preds curr.toNat then
      (link_preds curr.toNat).toNat :: walk_links node_preds link_preds fuel (node_preds curr.toNat)
    else []

/-- Python's `str.startswith`, evaluated on the character data (Lean's
byte-based `String.startsWith` is equivalent but does not reduce well in
proofs). -/
def starts_with (s pre : String) : Bool :=
  pre.data.isPrefixOf s.data

/-- `output_path_sequence` (src/path.py lines 125-150): the node-id sequence
(node mode) or link-id sequence (link mode) from origin to destination. The
Python generator is materialized as a list (its callers always consume it
whole). -/
def output_path_sequence (G : Network) (to_node_id seq_type : String) (s : PathState) :
    List String :=
  let start : Int := Int.ofNat ((G.map_id_to_no.lookup to_node_id).getD 0)
  if starts_with seq_type "node" then
    ((walk_nodes s.node_preds (G.node_size + 1) start).reverse).map
      (fun no => (G.map_no_to_id.lookup no).getD "")
  else
    ((walk_links s.node_preds s.link_preds (G.node_size + 1) start).reverse).map
      (fun no => (G.links.getD no default).link_id)

/-- `_get_path_sequence_str` (src/path.py lines 391-392). -/
def get_path_sequence_str (G : Network) (to_node_id seq_type : String) (s : PathState) :
    String :=
  String.intercalate ";" (output_path_sequence G to_node_id seq_type s)

/-- `find_shortest_path` (src/path.py lines 153-175). Python's `%.4f` float
formatting is abstracted to exact rational rendering. -/
def find_shortest_path (G : Network) (from_node_id to_node_id seq_type cost_type : String)
    (s : PathState) : Except String (PathState × String) :=
  if (G.map_id_to_no.lookup from_node_id).isNone then
    Except.error ("Node ID: " ++ from_node_id ++ " not in the network")
  else if (G.map_id_to_no.lookup to_node_id).isNone then
    Except.error ("Node ID: " ++ to_node_id ++ " not in the network")
  else
    let s' := single_source_shortest_path G from_node_id cost_type s
    let path_cost := get_path_cost G s' to_node_id cost_type
    if MAX_LABEL_COST ≤ path_cost then
      Except.ok (s', "path " ++ cost_type ++ ": infinity | path: ")
    else
      let p := get_path_sequence_str G to_node_id seq_type s'
      let unit := if starts_with cost_type "dis" then G.length_unit ++ "s" else "minutes"
      if starts_with seq_type "node" then
        Except.ok (s', "path " ++ cost_type ++ ": " ++ toString path_cost ++ " " ++ unit ++
          " | node path: " ++ p)
      else
        Except.ok (s', "path " ++ cost_type ++ ": " ++ toString path_cost ++ " " ++ unit ++
          " | link path: " ++ p)

/-- `get_shortest_path` (src/path.py lines 178-210): the one-to-one cost
query; unreachable destinations are mapped to the finite placeholder
9999999. -/
def get_shortest_path (G : Network) (from_node_id to_node_id cost_type : String)
    (s : PathState) : Except String (PathState × ℚ) :=
  if (G.map_id_to_no.lookup from_node_id).isNone then
    Except.error ("Node ID: " ++ from_node_id ++ " not in the network")
  else if (G.map_id_to_no.lookup to_node_id).isNone then
    Except.error ("Node ID: " ++ to_node_id ++ " not in the network")
  else
    let s' := single_source_shortest_path G from_node_id cost_type s
    let path_cost := get_path_cost G s' to_node_id cost_type
    if MAX_LABEL_COST ≤ path_cost then Except.ok (s', 9999999)
    else Except.ok (s', path_cost)

/-- `compute_row_distances` (src/path.py lines 213-214): one skim row,
threading the per-worker state through the column queries. -/
def compute_row_distances (G : Network) (row_node cost_type : String) (s : PathState) :
    List String → Except String (PathState × List ℚ)
  | [] => Except.ok (s, [])
  | c :: cs =>
    match get_shortest_path G row_node c cost_type s with
    | Except.error e => Except.error e
    | Except.ok (s', v) =>
      match compute_row_distances G row_node cost_type s' cs with
      | Except.error e => Except.error e
      | Except.ok (s'', vs) => Except.ok (s'', v :: vs)

/-- The parallel map over origins of `create_numpy_matrix_parallel`
(src/path.py lines 217-238): each worker process starts from its own copy of
the same state `s`. -/
def matrix_rows (G : Network) (cols : List String) (cost_type : String) (s : PathState) :
    List String → Except String (List (List ℚ))
  | [] => Except.ok []
  | r :: rs =>
    match compute_row_distances G r cost_type s cols with
    | Except.error e => Except.error e
    | Except.ok (_, row) =>
      match matrix_rows G cols cost_type s rs with
      | Except.error e => Except.error e
      | Except.ok m => Except.ok (row :: m)

/-- `create_numpy_matrix_parallel` (src/path.py lines 217-238). -/
def create_numpy_matrix_parallel (G : Network) (rows : List String) (cost_type : String)
    (s : PathState) : Except String (List (List ℚ)) :=
  matrix_rows G rows cost_type s rows

/-- Row-node selection of `find_shortest_path_network` (src/path.py line
283): the zone ids that are nonempty and whose stripped text is all
digits. -/
def centroid_row_nodes (G : Network) : List String :=
  (G.nodes.filter (fun nd =>
    nd.zone_id != "" && nd.zone_id.trim != "" && nd.zone_id.trim.all Char.isDigit)).map
    (fun nd => nd.zone_id)

/-- The travel mode passed to `find_shortest_path_network`: its `type` tag
("p", "t", "b", ...), its display name and its free-flow speed `ffs`. -/
structure Mode where
  type : String
  name : String
  ffs : ℚ

/-- Mode-specific cost transform of `find_shortest_path_network`
(src/path.py lines 285-295), applied in place to the link array before the
matrix computation: pedestrian rewrites every link's `fftt` to
`(length * 5280) / ffs / 60`; transit applies the same conversion only to
links whose allowed uses contain "p"; biking rewrites every link's `fftt`
to `length / ffs * 60`. -/
def apply_mode_transform (mode : Mode) (links : List LinkRec) : List LinkRec :=
  let ls1 :=
    if mode.type = "p" then
      links.map (fun l => { l with fftt := l.length * 5280 / mode.ffs / 60 })
    else links
  if mode.type = "t" then
    ls1.map (fun l =>
      if 'p' ∈ l.allowed_uses then { l with fftt := l.length * 5280 / mode.ffs / 60 } else l)
  else if mode.type = "b" then
    ls1.map (fun l => { l with fftt := l.length / mode.ffs * 60 })
  else ls1

/-- Computational core of `find_shortest_path_network` (src/path.py lines
276-330): output-type validation, centroid row selection, in-place mode
transform, then the parallel matrix computation. Saving the matrix to
.omx/.csv files is collaborator-owned I/O outside the value modelled
here. -/
def find_shortest_path_network (G : Network) (output_type cost_type : String) (mode : Mode)
    (s : PathState) : Except String (List (List ℚ)) :=
  if output_type ≠ ".omx" ∧ output_type ≠ ".csv" then
    Except.error ("Error: Unsupported output type " ++ output_type)
  else
    let rows := centroid_row_nodes G
    let Gm := { G with links := apply_mode_transform mode G.links }
    create_numpy_matrix_parallel Gm rows cost_type s

/-- A demand agent (collaborator entity): origin/destination ids and the
mutable `path_cost` / `node_path` / `link_path` fields that
`find_path_for_agents` populates. -/
structure Agent where
  o_node_id : String
  d_node_id : String
  path_cost : ℚ
  node_path : List Nat
  link_path : List Nat

/-- Backward path retrieval of `find_path_for_agents` (src/path.py lines
375-381): collects the node sequence and the link sequence, both in
backward destination-first order, exactly as the source stores them. -/
def backtrace_paths (node_preds link_preds : Nat → Int) : Nat → Int → List Nat × List Nat
  | 0, _ => ([], [])
  | Nat.succ fuel, curr =>
    if 0 ≤ curr then
      let rest := backtrace_paths node_preds link_preds fuel (node_preds curr.toNat)
      (curr.toNat :: rest.1,
        if 0 ≤ link_preds curr.toNat then (link_preds curr.toNat).toNat :: rest.2 else rest.2)
    else ([], [])

/-- Per-agent path assignment of `find_path_for_agents` (src/path.py lines
371-388): sets `path_cost` from the destination's label, then sets the
node/link paths only when the retrieved link path is non-empty. -/
def assign_agent_path (G : Network) (s' : PathState) (a : Agent) : Agent :=
  let curr := (G.map_id_to_no.lookup a.d_node_id).getD 0
  let a1 := { a with path_cost := s'.labels curr }
  let np := backtrace_paths s'.node_preds s'.link_preds (G.node_size + 1) (Int.ofNat curr)
  if np.2 = [] then a1
  else { a1 with node_path := np.1, link_path := np.2 }

/-- One iteration of the agent loop in `find_path_for_agents` (src/path.py
lines 348-388), instrumented: the boolean records whether the engine was
invoked — it is skipped exactly when the agent's origin equals the cached
previous origin `prev`. Agents whose origin equals their destination are
skipped untouched and do not update the cache. -/
def process_agent (G : Network) (cost_type : String) (s : PathState) (prev : String)
    (a : Agent) : Except String (PathState × String × Agent × Bool) :=
  if a.o_node_id = a.d_node_id then Except.ok (s, prev, a, false)
  else if (G.map_id_to_no.lookup a.o_node_id).isNone then
    Except.error ("Node ID: " ++ a.o_node_id ++ " not in the network")
  else if (G.map_id_to_no.lookup a.d_node_id).isNone then
    Except.error ("Node ID: " ++ a.d_node_id ++ " not in the network")
  else
    let s' :=
      if a.o_node_id != prev then single_source_shortest_path G a.o_node_id cost_type s
      else s
    let prev' := if a.o_node_id != prev then a.o_node_id else prev
    Except.ok (s', prev', assign_agent_path G s' a, a.o_node_id != prev)

/-- The agent loop of `find_path_for_agents` (src/path.py lines 347-388)
with the depth-one repeated-origin cache `from_node_id_prev`. -/
def find_path_for_agents_aux (G : Network) (cost_type : String) :
    List Agent → PathState → String → Except String (List Agent)
  | [], _, _ => Except.ok []
  | a :: rest, s, prev =>
    match process_agent G cost_type s prev a with
    | Except.error e => Except.error e
    | Except.ok (s', prev', a', _) =>
      match find_path_for_agents_aux G cost_type rest s' prev' with
      | Except.error e => Except.error e
      | Except.ok others => Except.ok (a' :: others)

/-- `find_path_for_agents` (src/path.py lines 333-388). Agent setup from the
column pool (`G.setup_agents`) is collaborator-owned; the agent list is
taken directly. The initial cache value is the Python sentinel `''`
(src/path.py line 347). -/
def find_path_for_agents (G : Network) (agents : List Agent) (engine_type : String)
    (s : PathState) : Except String (List Agent) :=
  find_path_for_agents_aux G engine_type agents s ""

/-- One iteration of the cache-free reference variant: the engine recomputes
the one-to-all tree for every processed agent. Stated from the spec's words
for the repeated-origin-reuse refinement claim; identical to `process_agent`
except that the depth-one origin cache is removed. -/
def process_agent_nocache (G : Network) (cost_type : String) (s : PathState) (a : Agent) :
    Except String (PathState × Agent) :=
  if a.o_node_id = a.d_node_id then Except.ok (s, a)
  else if (G.map_id_to_no.lookup a.o_node_id).isNone then
    Except.error ("Node ID: " ++ a.o_node_id ++ " not in the network")
  else if (G.map_id_to_no.lookup a.d_node_id).isNone then
    Except.error ("Node ID: " ++ a.d_node_id ++ " not in the network")
  else
    let s' := single_source_shortest_path G a.o_node_id cost_type s
    Except.ok (s', assign_agent_path G s' a)

/-- Cache-free agent loop (specification reference variant of
`find_path_for_agents_aux`). -/
def find_path_for_agents_nocache (G : Network) (cost_type : String) :
    List Agent → PathState → Except String (List Agent)
  | [], _ => Except.ok []
  | a :: rest, s =>
    match process_agent_nocache G cost_type s a with
    | Except.error e => Except.error e
    | Except.ok (s', a') =>
      match find_path_for_agents_nocache G cost_type rest s' with
      | Except.error e => Except.error e
      | Except.ok others => Except.ok (a' :: others)

/-- `get_shortest_path_tree` (src/path.py lines 395-433). The function's
docstring promises a dictionary keyed by every other node id, but the entire
dictionary-building body (lines 407-433) is a commented-out string literal,
so after the engine call the function falls through and returns Python
`None` — modelled as a `none` payload. -/
def get_shortest_path_tree (G : Network) (from_node_id seq_type cost_type : String)
    (integer_node_id : Bool) (s : PathState) :
    Except String (PathState × Option (List (String × ℚ × String))) :=
  if (G.map_id_to_no.lookup from_node_id).isNone then
    Except.error ("Node ID: " ++ from_node_id ++ " not in the network")
  else
    Except.ok (single_source_shortest_path G from_node_id cost_type s, none)

/-- The canonical value of a one-to-one cost query: the engine label of the
destination under the requested selector's rebuilt cost array, with the
9999999 placeholder for unreachable destinations. Derived form used to
state the matrix claims. -/
def sp_cost (G : Network) (cost_type from_node_id to_node_id : String) : ℚ :=
  let fno := (G.map_id_to_no.lookup from_node_id).getD 0
  let tno := (G.map_id_to_no.lookup to_node_id).getD 0
  let pc := (mlc G (init_link_costs G cost_type) fno).label tno
  if MAX_LABEL_COST ≤ pc then 9999999 else pc

/-- Concrete two-node network (nodes "1" ↦ 0, "2" ↦ 1) with one usable link
0 → 1, used to evaluate the development on closed instances. -/
def exNet : Network :=
  { map_id_to_no := [("1", 0), ("2", 1)]
    map_no_to_id := [(0, "1"), (1, "2")]
    nodes := [{ zone_id := "1" }, { zone_id := "2" }]
    links := [{ link_id := "L1", from_node := 0, to_node := 1, fftt := 2, length := 3,
                allowed_uses := ['a', 'p'] }]
    node_size := 2
    last_thru_node := 1
    agent_type := 'a'
    length_unit := "mile" }

/-- Concrete two-node network with no links: node "2" is unreachable from
node "1". -/
def exNet2 : Network :=
  { map_id_to_no := [("1", 0), ("2", 1)]
    map_no_to_id := [(0, "1"), (1, "2")]
    nodes := [{ zone_id := "1" }, { zone_id := "2" }]
    links := []
    node_size := 2
    last_thru_node := 1
    agent_type := 'a'
    length_unit := "mile" }

/-- Invariant of the engine state maintained by every step of the deque
loop when link costs are non-negative: labels stay within `[0, sentinel]`,
the origin keeps label 0 and no predecessors, and any node whose label is
still at or above the sentinel has no predecessors. -/
def TreeInv (origin : Nat) (s : MLCState) : Prop :=
  (∀ v, 0 ≤ s.label v) ∧ (∀ v, s.label v ≤ MAX_LABEL_COST) ∧
  s.label origin = 0 ∧ s.node_pred origin = -1 ∧ s.link_pred origin = -1 ∧
  (∀ v, MAX_LABEL_COST ≤ s.label v → s.node_pred v = -1 ∧ s.link_pred v = -1)

theorem push_node_label (v : Nat) (s : MLCState) : (push_node v s).label = s.label := by
  unfold push_node
  cases h : s.status v <;> simp [h]

theorem push_node_node_pred (v : Nat) (s : MLCState) :
    (push_node v s).node_pred = s.node_pred := by
  unfold push_node
  cases h : s.status v <;> simp [h]

theorem push_node_link_pred (v : Nat) (s : MLCState) :
    (push_node v s).link_pred = s.link_pred := by
  unfold push_node
  cases h : s.status v <;> simp [h]

theorem getD_nonneg (costs : List ℚ) (hc : ∀ c ∈ costs, 0 ≤ c) (i : Nat) :
    0 ≤ costs.getD i 0 := by
  rw [List.getD_eq_getElem?_getD]
  cases h : costs[i]? with
  | none => simp
  | some c =>
    simp only [Option.getD_some]
    exact hc c (List.getElem?_mem h)

theorem relax_link_inv (costs : List ℚ) (hc : ∀ c ∈ costs, 0 ≤ c) (origin u idx : Nat)
    (l : LinkRec) (s : MLCState) (h : TreeInv origin s) :
    TreeInv origin (relax_link costs u idx l s) := by
  obtain ⟨h0, hM, ho, hnp, hlp, hun⟩ := h
  unfold relax_link
  split
  case isFalse => exact ⟨h0, hM, ho, hnp, hlp, hun⟩
  case isTrue hlt =>
    have hcand : 0 ≤ s.label u + costs.getD idx 0 :=
      add_nonneg (h0 u) (getD_nonneg costs hc idx)
    have hvo : l.to_node ≠ origin := by
      intro he
      rw [he, ho] at hlt
      exact absurd hlt (not_lt.mpr hcand)
    have hcM : s.label u + costs.getD idx 0 < MAX_LABEL_COST :=
      lt_of_lt_of_le hlt (hM l.to_node)
    refine ⟨?_, ?_, ?_, ?_, ?_, ?_⟩ <;>
      simp only [push_node_label, push_node_node_pred, push_node_link_pred]
    · intro v
      by_cases hv : v = l.to_node
      · subst hv
        simp only [Function.update_same]
        exact hcand
      · rw [Function.update_noteq hv]
        exact h0 v
    · intro v
      by_cases hv : v = l.to_node
      · subst hv
        simp only [Function.update_same]
        exact le_of_lt hcM
      · rw [Function.update_noteq hv]
        exact hM v
    · rw [Function.update_noteq (Ne.symm hvo)]
      exact ho
    · rw [Function.update_noteq (Ne.symm hvo)]
      exact hnp
    · rw [Function.update_noteq (Ne.symm hvo)]
      exact hlp
    · intro v hv
      by_cases hveq : v = l.to_node
      · subst hveq
        rw [Function.update_same] at hv
        exact absurd hcM (not_lt.mpr hv)
      · rw [Function.update_noteq hveq] at hv
        rw [Function.update_noteq hveq, Function.update_noteq hveq]
        exact hun v hv

theorem scan_node_inv (G : Network) (costs : List ℚ) (hc : ∀ c ∈ costs, 0 ≤ c)
    (origin u : Nat) (s : MLCState) (h : TreeInv origin s) :
    TreeInv origin (scan_node G costs origin u s) := by
  unfold scan_node
  generalize G.links.enum = ps
  induction ps generalizing s with
  | nil => exact h
  | cons p ps ih =>
    simp only [List.foldl_cons]
    apply ih
    split
    · exact relax_link_inv costs hc origin u p.1 p.2 s h
    · exact h

theorem mlc_loop_inv (G : Network) (costs : List ℚ) (hc : ∀ c ∈ costs, 0 ≤ c)
    (origin : Nat) : ∀ (fuel : Nat) (s : MLCState), TreeInv origin s →
    TreeInv origin (mlc_loop G costs origin fuel s) := by
  intro fuel
  induction fuel with
  | zero => intro s h; exact h
  | succ n ih =>
    intro s h
    unfold mlc_loop
    cases hd : s.deque with
    | nil => exact h
    | cons u rest =>
      apply ih
      exact scan_node_inv G costs hc origin u _ ⟨h.1, h.2.1, h.2.2.1, h.2.2.2.1,
        h.2.2.2.2.1, h.2.2.2.2.2⟩

theorem mlc_init_inv (origin : Nat) : TreeInv origin (mlc_init origin) := by
  have hMpos : (0 : ℚ) < MAX_LABEL_COST := by norm_num [MAX_LABEL_COST]
  refine ⟨?_, ?_, ?_, ?_, ?_, ?_⟩
  · intro v
    by_cases hv : v = origin
    · subst hv; simp [mlc_init]
    · simp only [mlc_init, Function.update_noteq hv]
      exact le_of_lt hMpos
  · intro v
    by_cases hv : v = origin
    · subst hv
      simp only [mlc_init, Function.update_same]
      exact le_of_lt hMpos
    · simp only [mlc_init, Function.update_noteq hv]
      exact le_rfl
  · simp [mlc_init]
  · rfl
  · rfl
  · intro v hv
    by_cases hveq : v = origin
    · subst hveq
      simp only [mlc_init, Function.update_same] at hv
      exact absurd hMpos (not_lt.mpr hv)
    · exact ⟨rfl, rfl⟩

theorem mlc_inv (G : Network) (costs : List ℚ) (hc : ∀ c ∈ costs, 0 ≤ c) (origin : Nat) :
    TreeInv origin (mlc G costs origin) :=
  mlc_loop_inv G costs hc origin (mlc_fuel G) (mlc_init origin) (mlc_init_inv origin)

theorem init_link_costs_nonneg (G : Network) (cost_type : String)
    (hl : ∀ l ∈ G.links, 0 ≤ l.fftt ∧ 0 ≤ l.length) :
    ∀ c ∈ init_link_costs G cost_type, 0 ≤ c := by
  intro c hcmem
  rw [init_link_costs, List.mem_map] at hcmem
  obtain ⟨l, hlm, hle⟩ := hcmem
  subst hle
  split
  · exact (hl l hlm).1
  · exact (hl l hlm).2

theorem ssp_prev_cost_type (G : Network) (oid ct : String) (s : PathState) :
    (single_source_shortest_path G oid ct s).prev_cost_type = ct := by
  unfold single_source_shortest_path single_source_core
  by_cases h : s.prev_cost_type = ct
  · simp [h]
  · have hb : (s.prev_cost_type != ct) = true := by simp [bne_iff_ne, h]
    simp [hb]

theorem ssp_active_costs (G : Network) (oid ct : String) (s : PathState)
    (hinv : s.active_costs = init_link_costs G s.prev_cost_type) :
    (single_source_shortest_path G oid ct s).active_costs = init_link_costs G ct := by
  unfold single_source_shortest_path single_source_core
  by_cases h : s.prev_cost_type = ct
  · simp [h]
    rw [hinv, h]
  · have hb : (s.prev_cost_type != ct) = true := by simp [bne_iff_ne, h]
    simp [hb]

theorem ssp_tree_eq (G : Network) (oid ct : String) (s : PathState)
    (hinv : s.active_costs = init_link_costs G s.prev_cost_type) :
    (single_source_shortest_path G oid ct s).labels
        = (mlc G (init_link_costs G ct) ((G.map_id_to_no.lookup oid).getD 0)).label ∧
    (single_source_shortest_path G oid ct s).node_preds
        = (mlc G (init_link_costs G ct) ((G.map_id_to_no.lookup oid).getD 0)).node_pred ∧
    (single_source_shortest_path G oid ct s).link_preds
        = (mlc G (init_link_costs G ct) ((G.map_id_to_no.lookup oid).getD 0)).link_pred := by
  unfold single_source_shortest_path single_source_core
  by_cases h : s.prev_cost_type = ct
  · refine ⟨?_, ?_, ?_⟩ <;> simp [h] <;> rw [hinv, h]
  · have hb : (s.prev_cost_type != ct) = true := by simp [bne_iff_ne, h]
    refine ⟨?_, ?_, ?_⟩ <;> simp [hb]

theorem ssp_engine_run (G : Network) (oid ct : String) (s : PathState) :
    ∃ A : List ℚ, (A = init_link_costs G ct ∨ A = s.active_costs) ∧
      (single_source_shortest_path G oid ct s).labels
        = (mlc G A ((G.map_id_to_no.lookup oid).getD 0)).label ∧
      (single_source_shortest_path G oid ct s).node_preds
        = (mlc G A ((G.map_id_to_no.lookup oid).getD 0)).node_pred ∧
      (single_source_shortest_path G oid ct s).link_preds
        = (mlc G A ((G.map_id_to_no.lookup oid).getD 0)).link_pred := by
  unfold single_source_shortest_path single_source_core
  by_cases h : s.prev_cost_type = ct
  · exact ⟨s.active_costs, Or.inr rfl, by simp [h], by simp [h], by simp [h]⟩
  · have hb : (s.prev_cost_type != ct) = true := by simp [bne_iff_ne, h]
    exact ⟨init_link_costs G ct, Or.inl rfl, by simp [hb], by simp [hb], by simp [hb]⟩

theorem ssp_tree_props (G : Network) (oid ct : String) (s : PathState)
    (hl : ∀ l ∈ G.links, 0 ≤ l.fftt ∧ 0 ≤ l.length)
    (hact : ∀ c ∈ s.active_costs, 0 ≤ c) :
    (single_source_shortest_path G oid ct s).labels ((G.map_id_to_no.lookup oid).getD 0)
        = 0 ∧
    (single_source_shortest_path G oid ct s).node_preds ((G.map_id_to_no.lookup oid).getD 0)
        = -1 ∧
    (single_source_shortest_path G oid ct s).link_preds ((G.map_id_to_no.lookup oid).getD 0)
        = -1 ∧
    (∀ v, MAX_LABEL_COST ≤ (single_source_shortest_path G oid ct s).labels v →
      (single_source_shortest_path G oid ct s).node_preds v = -1 ∧
      (single_source_shortest_path G oid ct s).link_preds v = -1) := by
  obtain ⟨A, hA, hlab, hnp, hlp⟩ := ssp_engine_run G oid ct s
  have hAn : ∀ c ∈ A, 0 ≤ c := by
    cases hA with
    | inl hA => rw [hA]; exact init_link_costs_nonneg G ct hl
    | inr hA => rw [hA]; exact hact
  have hi := mlc_inv G A hAn ((G.map_id_to_no.lookup oid).getD 0)
  rw [hlab, hnp, hlp]
  exact ⟨hi.2.2.1, hi.2.2.2.1, hi.2.2.2.2.1, fun v hv => hi.2.2.2.2.2 v hv⟩

theorem ssp_idem (G : Network) (oid ct : String) (s : PathState) :
    single_source_shortest_path G oid ct (single_source_shortest_path G oid ct s)
      = single_source_shortest_path G oid ct s := by
  unfold single_source_shortest_path single_source_core
  by_cases h : s.prev_cost_type = ct
  · simp [h]
  · have hb : (s.prev_cost_type != ct) = true := by simp [bne_iff_ne, h]
    simp [hb]

/-- Claim C1: `get_shortest_path_tree` is documented (its docstring,
src/path.py lines 396-402, and the spec's one-to-all tree contract) to
return, for a known origin, a dictionary keyed by every other known node id
with (path cost, path string) values. Its dictionary-building body is
commented out, so for the known origin "1" of the concrete network `exNet`
it runs the engine and returns the Python `None` payload instead of a
dictionary with key "2". -/
theorem claim_C1 :
    get_shortest_path_tree exNet "1" "node" "time" false (init_path_state exNet)
      = Except.ok
          (single_source_shortest_path exNet "1" "time" (init_path_state exNet), none) := by
  rfl

/-- Claim C2: when the origin or the destination id is absent from the
ID↔index mapping, `find_shortest_path` and `get_shortest_path` raise the
unknown-node error: the result is an error value (never a default path or
cost), and it is the same error for every ambient state, so no
shortest-path computation is started and no state is updated. -/
theorem claim_C2 (G : Network) (from_node_id to_node_id seq_type cost_type : String)
    (s : PathState)
    (h : (G.map_id_to_no.lookup from_node_id).isNone = true ∨
         (G.map_id_to_no.lookup to_node_id).isNone = true) :
    (∃ msg : String,
        (∀ s' : PathState,
          find_shortest_path G from_node_id to_node_id seq_type cost_type s'
            = Except.error msg) ∧
        find_shortest_path G from_node_id to_node_id seq_type cost_type s
          = Except.error msg) ∧
    (∃ msg : String,
        (∀ s' : PathState,
          get_shortest_path G from_node_id to_node_id cost_type s' = Except.error msg) ∧
        get_shortest_path G from_node_id to_node_id cost_type s = Except.error msg) := by
  by_cases hf : (G.map_id_to_no.lookup from_node_id).isNone = true
  · exact ⟨⟨"Node ID: " ++ from_node_id ++ " not in the network",
      fun s' => by simp [find_shortest_path, hf], by simp [find_shortest_path, hf]⟩,
      ⟨"Node ID: " ++ from_node_id ++ " not in the network",
        fun s' => by simp [get_shortest_path, hf], by simp [get_shortest_path, hf]⟩⟩
  · have ht : (G.map_id_to_no.lookup to_node_id).isNone = true := by
      cases h with
      | inl h => exact absurd h hf
      | inr h => exact h
    simp only [Bool.not_eq_true] at hf
    exact ⟨⟨"Node ID: " ++ to_node_id ++ " not in the network",
      fun s' => by simp [find_shortest_path, hf, ht], by simp [find_shortest_path, hf, ht]⟩,
      ⟨"Node ID: " ++ to_node_id ++ " not in the network",
        fun s' => by simp [get_shortest_path, hf, ht], by simp [get_shortest_path, hf, ht]⟩⟩

/-- Witness for claim C2 at the concrete network `exNet` and the unknown
origin id "9". -/
theorem claim_C2_witness :
    ∃ msg : String,
      (∀ s' : PathState, get_shortest_path exNet "9" "2" "time" s' = Except.error msg) ∧
      get_shortest_path exNet "9" "2" "time" (init_path_state exNet) = Except.error msg :=
  (claim_C2 exNet "9" "2" "node" "time" (init_path_state exNet) (Or.inl (by decide))).2

/-- Claim C3: for known origin and destination ids, a cost query for an
unreachable destination never raises — whenever the engine's label for the
destination is at or above the sentinel `MAX_LABEL_COST`,
`get_shortest_path` returns the large finite placeholder 9999999 (which is
distinct from the internal sentinel) and `find_shortest_path` returns the
infinity marker string instead of a path. -/
theorem claim_C3 (G : Network) (from_node_id to_node_id seq_type cost_type : String)
    (s : PathState)
    (hf : (G.map_id_to_no.lookup from_node_id).isSome = true)
    (ht : (G.map_id_to_no.lookup to_node_id).isSome = true)
    (hun : MAX_LABEL_COST ≤
      get_path_cost G (single_source_shortest_path G from_node_id cost_type s)
        to_node_id cost_type) :
    get_shortest_path G from_node_id to_node_id cost_type s
      = Except.ok (single_source_shortest_path G from_node_id cost_type s, 9999999) ∧
    find_shortest_path G from_node_id to_node_id seq_type cost_type s
      = Except.ok (single_source_shortest_path G from_node_id cost_type s,
          "path " ++ cost_type ++ ": infinity | path: ") ∧
    (9999999 : ℚ) ≠ MAX_LABEL_COST := by
  obtain ⟨vf, hvf⟩ := Option.isSome_iff_exists.mp hf
  obtain ⟨vt, hvt⟩ := Option.isSome_iff_exists.mp ht
  refine ⟨?_, ?_, by norm_num [MAX_LABEL_COST]⟩
  · simp only [get_shortest_path, hvf, hvt, Option.isNone_some, Bool.false_eq_true,
      if_false]
    rw [if_pos hun]
  · simp only [find_shortest_path, hvf, hvt, Option.isNone_some, Bool.false_eq_true,
      if_false]
    rw [if_pos hun]

/-- Witness for claim C3 at the concrete link-free network `exNet2`, where
node "2" is unreachable from node "1". -/
theorem claim_C3_witness :
    get_shortest_path exNet2 "1" "2" "time" (init_path_state exNet2)
      = Except.ok
          (single_source_shortest_path exNet2 "1" "time" (init_path_state exNet2),
            9999999) :=
  (claim_C3 exNet2 "1" "2" "node" "time" (init_path_state exNet2) (by decide) (by decide)
    (by decide)).1

/-- Claim C4: at every engine invocation made through
`single_source_shortest_path`, the active link cost array corresponds to
the requested cost selector. Provided the ambient state satisfies the
cost-array/selector correspondence — which holds at module load, where
`_prev_cost_type` is "time" and the loader's initial array is the time
array (last two conjuncts) — the call rebuilds the array (invokes
`G.init_link_costs`) exactly when the requested selector differs from the
one used by the previous call, leaves the active array equal to
`init_link_costs G cost_type`, records the requested selector, and runs the
engine on exactly the requested selector's array. -/
theorem claim_C4 (G : Network) (orig_node_id cost_type : String) (s : PathState)
    (hinv : s.active_costs = init_link_costs G s.prev_cost_type) :
    ((single_source_core G orig_node_id cost_type s).2 = true ↔
        cost_type ≠ s.prev_cost_type) ∧
    (single_source_core G orig_node_id cost_type s).1.active_costs
        = init_link_costs G cost_type ∧
    (single_source_core G orig_node_id cost_type s).1.prev_cost_type = cost_type ∧
    (single_source_core G orig_node_id cost_type s).1.labels
        = (mlc G (init_link_costs G cost_type)
            ((G.map_id_to_no.lookup orig_node_id).getD 0)).label ∧
    (init_path_state G).prev_cost_type = "time" ∧
    (init_path_state G).active_costs = init_link_costs G "time" := by
  refine ⟨?_, ?_, ?_, ?_, rfl, rfl⟩
  · have hflag : (single_source_core G orig_node_id cost_type s).2
        = (s.prev_cost_type != cost_type) := rfl
    rw [hflag, bne_iff_ne]
    exact ne_comm
  · exact ssp_active_costs G orig_node_id cost_type s hinv
  · exact ssp_prev_cost_type G orig_node_id cost_type s
  · exact (ssp_tree_eq G orig_node_id cost_type s hinv).1

/-- Witness for claim C4 at the concrete network `exNet`, switching the
selector from the module-load "time" to "distance" on the first call. -/
theorem claim_C4_witness :
    ((single_source_core exNet "1" "distance" (init_path_state exNet)).2 = true ↔
        "distance" ≠ (init_path_state exNet).prev_cost_type) ∧
    (single_source_core exNet "1" "distance" (init_path_state exNet)).1.active_costs
        = init_link_costs exNet "distance" :=
  ⟨(claim_C4 exNet "1" "distance" (init_path_state exNet) (by decide)).1,
   (claim_C4 exNet "1" "distance" (init_path_state exNet) (by decide)).2.1⟩

/-- Claim C9: with an unchanged graph, switching the cost selector from
"time" to "distance" and back, then running the one-to-all computation for
the same origin under "time" again, reproduces the original time-based
shortest-path tree exactly — identical labels and predecessor arrays. -/
theorem claim_C9 (G : Network) (orig_node_id : String) (s : PathState)
    (hinv : s.active_costs = init_link_costs G s.prev_cost_type) :
    (single_source_shortest_path G orig_node_id "time"
        (single_source_shortest_path G orig_node_id "distance"
          (single_source_shortest_path G orig_node_id "time" s))).labels
      = (single_source_shortest_path G orig_node_id "time" s).labels ∧
    (single_source_shortest_path G orig_node_id "time"
        (single_source_shortest_path G orig_node_id "distance"
          (single_source_shortest_path G orig_node_id "time" s))).node_preds
      = (single_source_shortest_path G orig_node_id "time" s).node_preds ∧
    (single_source_shortest_path G orig_node_id "time"
        (single_source_shortest_path G orig_node_id "distance"
          (single_source_shortest_path G orig_node_id "time" s))).link_preds
      = (single_source_shortest_path G orig_node_id "time" s).link_preds := by
  have h1 : (single_source_shortest_path G orig_node_id "time" s).active_costs
      = init_link_costs G
          (single_source_shortest_path G orig_node_id "time" s).prev_cost_type := by
    rw [ssp_prev_cost_type, ssp_active_costs G orig_node_id "time" s hinv]
  have h2 : (single_source_shortest_path G orig_node_id "distance"
        (single_source_shortest_path G orig_node_id "time" s)).active_costs
      = init_link_costs G
          (single_source_shortest_path G orig_node_id "distance"
            (single_source_shortest_path G orig_node_id "time" s)).prev_cost_type := by
    rw [ssp_prev_cost_type, ssp_active_costs _ _ _ _ h1]
  obtain ⟨e1a, e1b, e1c⟩ := ssp_tree_eq G orig_node_id "time" s hinv
  obtain ⟨e3a, e3b, e3c⟩ := ssp_tree_eq G orig_node_id "time"
    (single_source_shortest_path G orig_node_id "distance"
      (single_source_shortest_path G orig_node_id "time" s)) h2
  exact ⟨by rw [e3a, e1a], by rw [e3b, e1b], by rw [e3c, e1c]⟩

/-- Witness for claim C9 at the concrete network `exNet` and origin "1". -/
theorem claim_C9_witness :
    (single_source_shortest_path exNet "1" "time"
        (single_source_shortest_path exNet "1" "distance"
          (single_source_shortest_path exNet "1" "time" (init_path_state exNet)))).labels
      = (single_source_shortest_path exNet "1" "time" (init_path_state exNet)).labels :=
  (claim_C9 exNet "1" (init_path_state exNet) (by decide)).1

theorem walk_nodes_neg (p : Nat → Int) (fuel : Nat) (c : Int) (h : c < 0) :
    walk_nodes p fuel c = [] := by
  cases fuel with
  | zero => rfl
  | succ f => simp [walk_nodes, not_le.mpr h]

/-- Claim C6: for the completed shortest-path tree produced by a one-to-all
run, `output_path_sequence` with destination equal to the origin terminates
without error and yields the single-node sequence `[origin]` in node mode
and the empty sequence in link mode. -/
theorem claim_C6 (G : Network) (oid ct : String) (s : PathState) (n : Nat)
    (hn : G.map_id_to_no.lookup oid = some n)
    (hback : G.map_no_to_id.lookup n = some oid)
    (hl : ∀ l ∈ G.links, 0 ≤ l.fftt ∧ 0 ≤ l.length)
    (hact : ∀ c ∈ s.active_costs, 0 ≤ c) :
    output_path_sequence G oid "node" (single_source_shortest_path G oid ct s) = [oid] ∧
    output_path_sequence G oid "link" (single_source_shortest_path G oid ct s) = [] := by
  obtain ⟨-, hnp, hlp, -⟩ := ssp_tree_props G oid ct s hl hact
  rw [hn] at hnp hlp
  simp only [Option.getD_some] at hnp hlp
  set sp := single_source_shortest_path G oid ct s with hsp
  constructor
  · have hsw : starts_with "node" "node" = true := by decide
    have e1 : walk_nodes sp.node_preds (G.node_size + 1) (Int.ofNat n)
        = (Int.ofNat n).toNat :: walk_nodes sp.node_preds G.node_size
            (sp.node_preds (Int.ofNat n).toNat) := by
      simp [walk_nodes]
    have e2 : (Int.ofNat n).toNat = n := rfl
    have hwalk : walk_nodes sp.node_preds (G.node_size + 1) (Int.ofNat n) = [n] := by
      rw [e1, e2, hnp, walk_nodes_neg _ _ _ (by norm_num)]
    simp only [output_path_sequence, hsw, if_true, hn, Option.getD_some]
    rw [hwalk]
    simp [hback]
  · have hsw : starts_with "link" "node" = false := by decide
    have e2 : (Int.ofNat n).toNat = n := rfl
    have hwalk : walk_links sp.node_preds sp.link_preds (G.node_size + 1) (Int.ofNat n)
        = [] := by
      simp [walk_links, e2, hlp]
    simp only [output_path_sequence, hsw, Bool.false_eq_true, if_false, hn,
      Option.getD_some]
    rw [hwalk]
    simp

/-- Witness for claim C6 at the concrete network `exNet`, origin "1". -/
theorem claim_C6_witness :
    output_path_sequence exNet "1" "node"
        (single_source_shortest_path exNet "1" "time" (init_path_state exNet)) = ["1"] ∧
    output_path_sequence exNet "1" "link"
        (single_source_shortest_path exNet "1" "time" (init_path_state exNet)) = [] :=
  claim_C6 exNet "1" "time" (init_path_state exNet) 0 (by decide) (by decide) (by decide)
    (by decide)

/-- Claim C7: in `find_shortest_path_network`, mode-specific cost
transforms are applied to the link cost data exactly once, before the
parallel matrix computation is dispatched and never per row: the produced
matrix is the parallel matrix over the once-transformed network (every row
is computed over the same transformed link array), and the transform
rewrites, for pedestrian mode, every link's free-flow travel time to
`(length * 5280) / mode.ffs / 60`; for transit mode the same conversion
applies only to links whose allowed uses contain "p"; for biking mode every
link's free-flow travel time becomes `length / mode.ffs * 60`. -/
theorem claim_C7 (G : Network) (output_type cost_type : String) (mode : Mode)
    (s : PathState) (hot : output_type = ".omx" ∨ output_type = ".csv") :
    find_shortest_path_network G output_type cost_type mode s
      = create_numpy_matrix_parallel
          { G with links := apply_mode_transform mode G.links }
          (centroid_row_nodes G) cost_type s ∧
    (mode.type = "p" → apply_mode_transform mode G.links
      = G.links.map (fun l => { l with fftt := l.length * 5280 / mode.ffs / 60 })) ∧
    (mode.type = "t" → apply_mode_transform mode G.links
      = G.links.map (fun l =>
          if 'p' ∈ l.allowed_uses then { l with fftt := l.length * 5280 / mode.ffs / 60 }
          else l)) ∧
    (mode.type = "b" → apply_mode_transform mode G.links
      = G.links.map (fun l => { l with fftt := l.length / mode.ffs * 60 })) := by
  refine ⟨?_, ?_, ?_, ?_⟩
  · unfold find_shortest_path_network
    rcases hot with h | h <;> subst h <;> rw [if_neg (by simp)]
  · intro hp
    unfold apply_mode_transform
    rw [hp]
    simp
  · intro htm
    unfold apply_mode_transform
    rw [htm]
    simp
  · intro hb
    unfold apply_mode_transform
    rw [hb]
    simp

/-- Witness for claim C7 at the concrete network `exNet` in pedestrian
mode with a .csv output request. -/
theorem claim_C7_witness :
    find_shortest_path_network exNet ".csv" "time"
        { type := "p", name := "walk", ffs := 3 } (init_path_state exNet)
      = create_numpy_matrix_parallel
          { exNet with
            links := apply_mode_transform { type := "p", name := "walk", ffs := 3 }
              exNet.links }
          (centroid_row_nodes exNet) "time" (init_path_state exNet) :=
  (claim_C7 exNet ".csv" "time" { type := "p", name := "walk", ffs := 3 }
    (init_path_state exNet) (Or.inr rfl)).1

theorem get_shortest_path_ok (G : Network) (f t ct : String) (s : PathState)
    (hf : (G.map_id_to_no.lookup f).isSome = true)
    (ht : (G.map_id_to_no.lookup t).isSome = true)
    (hinv : s.active_costs = init_link_costs G s.prev_cost_type) :
    get_shortest_path G f t ct s
      = Except.ok (single_source_shortest_path G f ct s, sp_cost G ct f t) ∧
    (single_source_shortest_path G f ct s).active_costs
      = init_link_costs G (single_source_shortest_path G f ct s).prev_cost_type := by
  obtain ⟨vf, hvf⟩ := Option.isSome_iff_exists.mp hf
  obtain ⟨vt, hvt⟩ := Option.isSome_iff_exists.mp ht
  constructor
  · have hlab := (ssp_tree_eq G f ct s hinv).1
    rw [hvf] at hlab
    simp only [Option.getD_some] at hlab
    simp only [get_shortest_path, sp_cost, get_path_cost, hvf, hvt, Option.isNone_some,
      Bool.false_eq_true, if_false, Option.getD_some]
    rw [hlab]
    split
    case isTrue h => rfl
    case isFalse h => rfl
  · rw [ssp_prev_cost_type]
    exact ssp_active_costs G f ct s hinv

theorem compute_row_ok (G : Network) (f ct : String)
    (hf : (G.map_id_to_no.lookup f).isSome = true) :
    ∀ (cols : List String) (s : PathState),
      s.active_costs = init_link_costs G s.prev_cost_type →
      (∀ c ∈ cols, (G.map_id_to_no.lookup c).isSome = true) →
      ∃ s' : PathState,
        compute_row_distances G f ct s cols = Except.ok (s', cols.map (sp_cost G ct f)) ∧
        s'.active_costs = init_link_costs G s'.prev_cost_type := by
  intro cols
  induction cols with
  | nil => intro s hinv _; exact ⟨s, rfl, hinv⟩
  | cons c cs ih =>
    intro s hinv hall
    obtain ⟨hok, hinv'⟩ := get_shortest_path_ok G f c ct s hf (hall c (by simp)) hinv
    obtain ⟨s'', hrow, hinv''⟩ := ih (single_source_shortest_path G f ct s) hinv'
      (fun x hx => hall x (by simp [hx]))
    refine ⟨s'', ?_, hinv''⟩
    simp only [compute_row_distances, hok, hrow, List.map_cons]

theorem matrix_rows_ok (G : Network) (cols : List String) (ct : String) (s : PathState)
    (hinv : s.active_costs = init_link_costs G s.prev_cost_type)
    (hcols : ∀ c ∈ cols, (G.map_id_to_no.lookup c).isSome = true) :
    ∀ rows : List String, (∀ r ∈ rows, (G.map_id_to_no.lookup r).isSome = true) →
      matrix_rows G cols ct s rows
        = Except.ok (rows.map (fun r => cols.map (sp_cost G ct r))) := by
  intro rows
  induction rows with
  | nil => intro _; rfl
  | cons r rs ih =>
    intro hall
    obtain ⟨s', hrow, -⟩ := compute_row_ok G r ct (hall r (by simp)) cols s hinv hcols
    simp only [matrix_rows, hrow, ih (fun x hx => hall x (by simp [hx])), List.map_cons]

/-- Claim C8: for every list of known centroid row nodes and any cost
selector (under the cost-array/selector correspondence and non-negative
link attributes), `create_numpy_matrix_parallel` succeeds; entry (i, j) of
the produced matrix is exactly the one-to-one shortest-path cost from
row-node i to row-node j as returned by `get_shortest_path`, and every
diagonal entry (i, i) is exactly zero. -/
theorem claim_C8 (G : Network) (ct : String) (rows : List String) (s : PathState)
    (hinv : s.active_costs = init_link_costs G s.prev_cost_type)
    (hl : ∀ l ∈ G.links, 0 ≤ l.fftt ∧ 0 ≤ l.length)
    (hall : ∀ r ∈ rows, (G.map_id_to_no.lookup r).isSome = true) :
    ∃ M : List (List ℚ),
      create_numpy_matrix_parallel G rows ct s = Except.ok M ∧
      (∀ (i j : Nat) (ri rj : String), rows[i]? = some ri → rows[j]? = some rj →
        ∃ row : List ℚ, M[i]? = some row ∧ row[j]? = some (sp_cost G ct ri rj) ∧
          get_shortest_path G ri rj ct s
            = Except.ok (single_source_shortest_path G ri ct s, sp_cost G ct ri rj)) ∧
      (∀ (i : Nat) (ri : String), rows[i]? = some ri →
        ∃ row : List ℚ, M[i]? = some row ∧ row[i]? = some 0) := by
  refine ⟨rows.map (fun r => rows.map (sp_cost G ct r)), ?_, ?_, ?_⟩
  · exact matrix_rows_ok G rows ct s hinv hall rows hall
  · intro i j ri rj hri hrj
    refine ⟨rows.map (sp_cost G ct ri), ?_, ?_, ?_⟩
    · simp [List.getElem?_map, hri]
    · simp [List.getElem?_map, hrj]
    · exact (get_shortest_path_ok G ri rj ct s (hall ri (List.getElem?_mem hri))
        (hall rj (List.getElem?_mem hrj)) hinv).1
  · intro i ri hri
    have hdiag : sp_cost G ct ri ri = 0 := by
      have hi := mlc_inv G (init_link_costs G ct) (init_link_costs_nonneg G ct hl)
        ((G.map_id_to_no.lookup ri).getD 0)
      simp only [sp_cost]
      rw [hi.2.2.1, if_neg (by norm_num [MAX_LABEL_COST])]
    refine ⟨rows.map (sp_cost G ct ri), ?_, ?_⟩
    · simp [List.getElem?_map, hri]
    · simp [List.getElem?_map, hri, hdiag]

/-- Witness for claim C8 at the concrete network `exNet` with the centroid
rows ["1", "2"]. -/
theorem claim_C8_witness :
    ∃ M : List (List ℚ),
      create_numpy_matrix_parallel exNet ["1", "2"] "time" (init_path_state exNet)
        = Except.ok M ∧
      (∀ (i j : Nat) (ri rj : String), (["1", "2"] : List String)[i]? = some ri →
        (["1", "2"] : List String)[j]? = some rj →
        ∃ row : List ℚ, M[i]? = some row ∧ row[j]? = some (sp_cost exNet "time" ri rj) ∧
          get_shortest_path exNet ri rj "time" (init_path_state exNet)
            = Except.ok
                (single_source_shortest_path exNet ri "time" (init_path_state exNet),
                  sp_cost exNet "time" ri rj)) ∧
      (∀ (i : Nat) (ri : String), (["1", "2"] : List String)[i]? = some ri →
        ∃ row : List ℚ, M[i]? = some row ∧ row[i]? = some 0) :=
  claim_C8 exNet "time" ["1", "2"] (init_path_state exNet) (by decide) (by decide)
    (by decide)

theorem find_path_agents_cache_eq (G : Network) (ct : String)
    (hempty : G.map_id_to_no.lookup "" = none) :
    ∀ (agents : List Agent) (s : PathState) (prev : String),
      (prev ≠ "" → single_source_shortest_path G prev ct s = s) →
      find_path_for_agents_aux G ct agents s prev
        = find_path_for_agents_nocache G ct agents s := by
  intro agents
  induction agents with
  | nil => intro s prev _; rfl
  | cons a rest ih =>
    intro s prev hinv
    by_cases hod : a.o_node_id = a.d_node_id
    · simp only [find_path_for_agents_aux, find_path_for_agents_nocache, process_agent,
        process_agent_nocache, hod, if_true]
      rw [ih s prev hinv]
    · cases ho : G.map_id_to_no.lookup a.o_node_id with
      | none =>
        simp only [find_path_for_agents_aux, find_path_for_agents_nocache, process_agent,
          process_agent_nocache, hod, ho, if_false, Option.isNone_none, if_true]
      | some no =>
        cases hd : G.map_id_to_no.lookup a.d_node_id with
        | none =>
          simp only [find_path_for_agents_aux, find_path_for_agents_nocache, process_agent,
            process_agent_nocache, hod, ho, hd, if_false, Option.isNone_none,
            Option.isNone_some, Bool.false_eq_true, if_true]
        | some dno =>
          by_cases hco : a.o_node_id = prev
          · have hne : prev ≠ "" := by
              intro hpe
              have hcontr : G.map_id_to_no.lookup "" = some no := by
                rw [← hpe, ← hco]
                exact ho
              rw [hempty] at hcontr
              exact Option.noConfusion hcontr
            have hb : (a.o_node_id != prev) = false := by
              simp [bne_eq_false_iff_eq, hco]
            have hsspa : single_source_shortest_path G a.o_node_id ct s = s := by
              rw [hco]
              exact hinv hne
            simp only [find_path_for_agents_aux, find_path_for_agents_nocache,
              process_agent, process_agent_nocache, hod, ho, hd, hb, hsspa, if_false,
              Option.isNone_some, Bool.false_eq_true]
            rw [ih s prev hinv]
          · have hb : (a.o_node_id != prev) = true := by simp [bne_iff_ne, hco]
            simp only [find_path_for_agents_aux, find_path_for_agents_nocache,
              process_agent, process_agent_nocache, hod, ho, hd, hb, if_false, if_true,
              Option.isNone_some, Bool.false_eq_true]
            rw [ih (single_source_shortest_path G a.o_node_id ct s) a.o_node_id
              (fun _ => ssp_idem G a.o_node_id ct s)]

theorem process_agent_flag (G : Network) (ct : String) (s : PathState) (prev : String)
    (a : Agent) (hod : a.o_node_id ≠ a.d_node_id)
    (ho : (G.map_id_to_no.lookup a.o_node_id).isSome = true)
    (hd : (G.map_id_to_no.lookup a.d_node_id).isSome = true) :
    ∃ (s' : PathState) (a' : Agent),
      process_agent G ct s prev a
        = Except.ok (s', a.o_node_id, a', a.o_node_id != prev) := by
  obtain ⟨no, hno⟩ := Option.isSome_iff_exists.mp ho
  obtain ⟨dno, hdno⟩ := Option.isSome_iff_exists.mp hd
  by_cases hco : a.o_node_id = prev
  · have hb : (a.o_node_id != prev) = false := by
      simp [bne_eq_false_iff_eq, hco]
    refine ⟨s, assign_agent_path G s a, ?_⟩
    simp only [process_agent, hod, hno, hdno, hb, if_false, Option.isNone_some,
      Bool.false_eq_true]
    rw [hco]
  · have hb : (a.o_node_id != prev) = true := by simp [bne_iff_ne, hco]
    refine ⟨single_source_shortest_path G a.o_node_id ct s,
      assign_agent_path G (single_source_shortest_path G a.o_node_id ct s) a, ?_⟩
    simp only [process_agent, hod, hno, hdno, hb, if_false, if_true, Option.isNone_some,
      Bool.false_eq_true]

/-- Claim C5: `find_path_for_agents` with the depth-one repeated-origin
cache produces, for every agent, exactly the same results as the variant
that recomputes the one-to-all tree for every processed agent — both from
the entry point (cache initialized to the Python sentinel `''`) and from
any loop state whose cache is consistent with the tree buffers; moreover
the engine call is skipped exactly when the current agent's origin equals
the cached origin of the immediately preceding processed agent (the
returned flag is `origin != prev`), and processing an agent with a
different origin replaces the cache. The hypothesis `hempty` records the
graph-load guarantee that the empty string is not a node id. -/
theorem claim_C5 (G : Network) (ct : String)
    (hempty : G.map_id_to_no.lookup "" = none) :
    (∀ (agents : List Agent) (s : PathState),
      find_path_for_agents G agents ct s = find_path_for_agents_nocache G ct agents s) ∧
    (∀ (agents : List Agent) (s : PathState) (prev : String),
      (prev ≠ "" → single_source_shortest_path G prev ct s = s) →
      find_path_for_agents_aux G ct agents s prev
        = find_path_for_agents_nocache G ct agents s) ∧
    (∀ (s : PathState) (prev : String) (a : Agent),
      a.o_node_id ≠ a.d_node_id →
      (G.map_id_to_no.lookup a.o_node_id).isSome = true →
      (G.map_id_to_no.lookup a.d_node_id).isSome = true →
      ∃ (s' : PathState) (a' : Agent),
        process_agent G ct s prev a
          = Except.ok (s', a.o_node_id, a', a.o_node_id != prev)) := by
  refine ⟨?_, ?_, ?_⟩
  · intro agents s
    exact find_path_agents_cache_eq G ct hempty agents s "" (fun h => absurd rfl h)
  · exact fun agents s prev h => find_path_agents_cache_eq G ct hempty agents s prev h
  · exact fun s prev a hod ho hd => process_agent_flag G ct s prev a hod ho hd

/-- Witness for claim C5 at the concrete network `exNet` with a one-agent
demand list. -/
theorem claim_C5_witness :
    find_path_for_agents exNet
        [{ o_node_id := "1", d_node_id := "2", path_cost := 0, node_path := [],
           link_path := [] }] "time" (init_path_state exNet)
      = find_path_for_agents_nocache exNet "time"
          [{ o_node_id := "1", d_node_id := "2", path_cost := 0, node_path := [],
             link_path := [] }] (init_path_state exNet) :=
  (claim_C5 exNet "time" (by decide)).1
    [{ o_node_id := "1", d_node_id := "2", path_cost := 0, node_path := [],
       link_path := [] }] (init_path_state exNet)

theorem backtrace_paths_neg (np lp : Nat → Int) (fuel : Nat) (c : Int) (h : c < 0) :
    backtrace_paths np lp fuel c = ([], []) := by
  cases fuel with
  | zero => rfl
  | succ f => simp [backtrace_paths, not_le.mpr h]

theorem backtrace_paths_none (np lp : Nat → Int) (fuel : Nat) (d : Nat)
    (hnp : np d = -1) (hlp : lp d = -1) :
    backtrace_paths np lp (fuel + 1) (Int.ofNat d) = ([d], []) := by
  have e2 : (Int.ofNat d).toNat = d := rfl
  have hnn : (0 : Int) ≤ Int.ofNat d := Int.ofNat_nonneg d
  simp only [backtrace_paths, hnn, if_true, e2, hnp, hlp]
  rw [backtrace_paths_neg _ _ _ _ (by norm_num)]
  norm_num

/-- Claim C10: in `find_path_for_agents`, an agent whose origin equals its
destination is passed over with no field modified (and no state or cache
change); and an agent whose destination is unreachable (the engine's label
for it is at or above the sentinel) gets `path_cost` set to the engine's
raw label — at or above `MAX_LABEL_COST` and distinct from the 9999999
placeholder used by `get_shortest_path` — while `node_path` and
`link_path` are left unmodified. -/
theorem claim_C10 (G : Network) (ct : String) (s : PathState) (prev : String) (a : Agent)
    (hempty : G.map_id_to_no.lookup "" = none)
    (hl : ∀ l ∈ G.links, 0 ≤ l.fftt ∧ 0 ≤ l.length)
    (hact : ∀ c ∈ s.active_costs, 0 ≤ c)
    (hinv : prev ≠ "" → single_source_shortest_path G prev ct s = s) :
    (a.o_node_id = a.d_node_id →
      process_agent G ct s prev a = Except.ok (s, prev, a, false)) ∧
    (∀ dno : Nat, a.o_node_id ≠ a.d_node_id →
      (G.map_id_to_no.lookup a.o_node_id).isSome = true →
      G.map_id_to_no.lookup a.d_node_id = some dno →
      MAX_LABEL_COST ≤
        (if a.o_node_id != prev then single_source_shortest_path G a.o_node_id ct s
         else s).labels dno →
      ∃ a' : Agent,
        process_agent G ct s prev a
          = Except.ok
              ((if a.o_node_id != prev then
                  single_source_shortest_path G a.o_node_id ct s
                else s), a.o_node_id, a', a.o_node_id != prev) ∧
        a'.node_path = a.node_path ∧ a'.link_path = a.link_path ∧
        a'.path_cost
          = (if a.o_node_id != prev then single_source_shortest_path G a.o_node_id ct s
             else s).labels dno ∧
        MAX_LABEL_COST ≤ a'.path_cost ∧ a'.path_cost ≠ 9999999) := by
  constructor
  · intro h
    simp [process_agent, h]
  · intro dno hod ho hdno hun
    obtain ⟨no, hno⟩ := Option.isSome_iff_exists.mp ho
    by_cases hb : (a.o_node_id != prev) = true
    · simp only [hb, if_true] at hun ⊢
      have hpr := (ssp_tree_props G a.o_node_id ct s hl hact).2.2.2 dno hun
      have hassign : assign_agent_path G (single_source_shortest_path G a.o_node_id ct s) a
          = { a with
              path_cost := (single_source_shortest_path G a.o_node_id ct s).labels dno } := by
        unfold assign_agent_path
        rw [hdno]
        simp only [Option.getD_some]
        rw [backtrace_paths_none _ _ _ _ hpr.1 hpr.2]
        simp
      have hne9 : (single_source_shortest_path G a.o_node_id ct s).labels dno
          ≠ 9999999 := by
        intro he
        rw [he] at hun
        norm_num [MAX_LABEL_COST] at hun
      refine ⟨{ a with
          path_cost := (single_source_shortest_path G a.o_node_id ct s).labels dno },
        ?_, rfl, rfl, rfl, hun, hne9⟩
      simp only [process_agent, hod, hno, hdno, hb, if_false, if_true,
        Option.isNone_some, Bool.false_eq_true, hassign]
    · have hb' : (a.o_node_id != prev) = false := by
        cases hbv : (a.o_node_id != prev) with
        | false => rfl
        | true => exact absurd hbv hb
      have hco : a.o_node_id = prev := bne_eq_false_iff_eq.mp hb' 
      have hne : prev ≠ "" := by
        intro hpe
        have hcontr : G.map_id_to_no.lookup "" = some no := by
          rw [← hpe, ← hco]
          exact hno
        rw [hempty] at hcontr
        exact Option.noConfusion hcontr
      have hfix := hinv hne
      simp only [hb', Bool.false_eq_true, if_false] at hun ⊢
      have hpr : s.node_preds dno = -1 ∧ s.link_preds dno = -1 := by
        have hall := (ssp_tree_props G prev ct s hl hact).2.2.2 dno
        rw [hfix] at hall
        exact hall hun
      have hassign : assign_agent_path G s a
          = { a with path_cost := s.labels dno } := by
        unfold assign_agent_path
        rw [hdno]
        simp only [Option.getD_some]
        rw [backtrace_paths_none _ _ _ _ hpr.1 hpr.2]
        simp
      have hne9 : s.labels dno ≠ 9999999 := by
        intro he
        rw [he] at hun
        norm_num [MAX_LABEL_COST] at hun
      refine ⟨{ a with path_cost := s.labels dno }, ?_, rfl, rfl, rfl, hun, hne9⟩
      simp only [process_agent, hod, hno, hdno, hb', if_false, Option.isNone_some,
        Bool.false_eq_true, hassign]
      rw [hco]

/-- Witness for claim C10 at the concrete link-free network `exNet2`: an
agent whose origin equals its destination is left untouched, and an agent
bound for the unreachable node "2" gets the raw sentinel label as its cost
with untouched node/link paths. -/
theorem claim_C10_witness :
    (process_agent exNet2 "time" (init_path_state exNet2) ""
        { o_node_id := "1", d_node_id := "1", path_cost := 0, node_path := [],
          link_path := [] }
      = Except.ok (init_path_state exNet2, "",
          { o_node_id := "1", d_node_id := "1", path_cost := 0, node_path := [],
            link_path := [] }, false)) ∧
    (∃ a' : Agent,
      process_agent exNet2 "time" (init_path_state exNet2) ""
          { o_node_id := "1", d_node_id := "2", path_cost := 0, node_path := [],
            link_path := [] }
        = Except.ok
            (single_source_shortest_path exNet2 "1" "time" (init_path_state exNet2),
              "1", a', true) ∧
      a'.node_path = [] ∧ a'.link_path = [] ∧
      a'.path_cost
        = (single_source_shortest_path exNet2 "1" "time" (init_path_state exNet2)).labels 1 ∧
      MAX_LABEL_COST ≤ a'.path_cost ∧ a'.path_cost ≠ 9999999) :=
  ⟨(claim_C10 exNet2 "time" (init_path_state exNet2) ""
      { o_node_id := "1", d_node_id := "1", path_cost := 0, node_path := [],
        link_path := [] }
      (by decide) (by decide) (by decide) (fun h => absurd rfl h)).1 rfl,
   (claim_C10 exNet2 "time" (init_path_state exNet2) ""
      { o_node_id := "1", d_node_id := "2", path_cost := 0, node_path := [],
        link_path := [] }
      (by decide) (by decide) (by decide) (fun h => absurd rfl h)).2 1
      (by decide) (by decide) (by decide) (by decide)⟩

end Path4GMNS
